import Mathlib

/-
Verification of the Rust kernel file-operations bridging layer
(rust/kernel/file_operations.rs and rust/kernel/miscdev.rs).

The definitions below are a shallow embedding of that code: machine
integers become Nat (unsigned) or Int (signed) with explicit bounds where
they matter, fallible Rust code returning KernelResult<T> becomes
Except Error T, and the generic trampolines (monomorphized over a driver
type T implementing FileOperations) become functions parameterized by the
driver's method implementations.
-/

/-- Modelled from the spec: the error kinds of section 7. The concrete
`Error` type lives in rust/kernel/error.rs, which is not under src/; it
wraps a kernel errno as a signed integer, with named constants holding the
negated C errno values, `to_kernel_errno` exposing the stored (negative)
integer and `from_kernel_errno` wrapping a host-returned negative code. -/
structure Error where
  code : Int
deriving DecidableEq

/-- The invalid-argument errno, -EINVAL. -/
def Error.EINVAL : Error := ⟨-22⟩

/-- The addressing-failure errno, -EFAULT. -/
def Error.EFAULT : Error := ⟨-14⟩

/-- The resource-exhaustion errno, -ENOMEM. -/
def Error.ENOMEM : Error := ⟨-12⟩

/-- Returns the signed numeric code the host convention expects. -/
def Error.to_kernel_errno (e : Error) : Int := e.code

/-- Wraps a negative host return code as an `Error`. -/
def Error.from_kernel_errno (code : Int) : Error := ⟨code⟩

/-- Rust's `KernelResult<T>` from the kernel crate. -/
abbrev KernelResult (T : Type) := Except Error T

/-- Modelled from the spec: the spec's unsupported-operation error kind
(capability not declared). error.rs is not under src/; in this code base
every defaulted interface method returns the EINVAL errno, the same value
the code uses for invalid-argument, so the kind is realized as EINVAL. -/
def unsupportedError : Error := Error.EINVAL

/- Host command-encoding convention (asm-generic ioctl.h bindings): bit
layout of the packed ioctl command word, seek whence codes, the
non-blocking flag and the dynamic-minor marker. These constants are
generated bindings, not under src/, fixed by the host convention the spec
names in section 6. -/

def _IOC_SIZESHIFT : Nat := 16

def _IOC_SIZEMASK : Nat := 0x3fff

def _IOC_DIRSHIFT : Nat := 30

def _IOC_DIRMASK : Nat := 3

def _IOC_NONE : Nat := 0

def _IOC_WRITE : Nat := 1

def _IOC_READ : Nat := 2

def SEEK_SET : Nat := 0

def SEEK_CUR : Nat := 1

def SEEK_END : Nat := 2

def O_NONBLOCK : Nat := 2048

def MISC_DYNAMIC_MINOR : Nat := 255

/-- Modelled from the spec: the Bounded-View wrapper over a userspace
buffer (rust/kernel/user_ptr.rs is not under src/). A `UserSlicePtr` is a
(pointer, length) pair drawn from a host-supplied buffer and length. -/
structure UserSlicePtr where
  ptr : Nat
  len : Nat
deriving DecidableEq

/-- Modelled from the spec: the reader variant of the bounded view; `len`
is the remaining length, which only decreases as bytes are consumed. -/
structure UserSlicePtrReader where
  ptr : Nat
  len : Nat
deriving DecidableEq

/-- Modelled from the spec: the writer variant of the bounded view; `len`
is the remaining length, which only decreases as bytes are produced. -/
structure UserSlicePtrWriter where
  ptr : Nat
  len : Nat
deriving DecidableEq

/-- Modelled from the spec: `UserSlicePtr::new` validates the buffer
address and length against the caller's addressing mode (the `access_ok`
check), failing with the addressing error when validation fails. The
validation predicate is the host's and is passed as a parameter. -/
def UserSlicePtr.new (valid : Nat → Nat → Bool) (ptr : Nat) (len : Nat) :
    KernelResult UserSlicePtr :=
  if valid ptr len then .ok ⟨ptr, len⟩ else .error Error.EFAULT

/-- Modelled from the spec: turning the slice into its reader view of the
full declared length. -/
def UserSlicePtr.reader (u : UserSlicePtr) : UserSlicePtrReader := ⟨u.ptr, u.len⟩

/-- Modelled from the spec: turning the slice into its writer view of the
full declared length. -/
def UserSlicePtr.writer (u : UserSlicePtr) : UserSlicePtrWriter := ⟨u.ptr, u.len⟩

/-- The kernel's `struct file` as the trampolines use it: the per-open
opaque slot `private_data` (an address, 0 for null), the current position
`f_pos` (a C loff_t, i.e. signed 64-bit) and the flag word `f_flags`. -/
structure file where
  private_data : Nat
  f_pos : Int
  f_flags : Nat
deriving DecidableEq

/-- `File::pos`: `f_pos as u64`, the signed-to-unsigned cast being
reduction mod 2^64. -/
def File.pos (f : file) : Nat := (f.f_pos % (2 ^ 64 : Int)).toNat

/-- `File::is_blocking`: true when the `O_NONBLOCK` bit is clear. -/
def File.is_blocking (f : file) : Bool := f.f_flags &&& O_NONBLOCK == 0

/-- `SeekFrom` from file_operations.rs. -/
inductive SeekFrom where
  | Start : Nat → SeekFrom
  | End : Int → SeekFrom
  | Current : Int → SeekFrom
deriving DecidableEq

/-- Rust's `TryInto` from loff_t (i64) to u64 as the kernel code uses it:
fails exactly on negative values, and the kernel error conversion turns
the failure into EINVAL. The source i64 is always below 2^63, so
negativity is the only failure. -/
def i64_try_into_u64 (v : Int) : KernelResult Nat :=
  if 0 ≤ v then .ok v.toNat else .error Error.EINVAL

/-- Rust's `as` cast from u64 to i64 (loff_t): wraps mod 2^64 into the
signed range. -/
def u64_as_i64 (n : Nat) : Int :=
  if n < 2 ^ 63 then (n : Int) else (n : Int) - 2 ^ 64

/-- `from_kernel_result` from file_operations.rs: a success passes
through, an error becomes its signed kernel errno. -/
def from_kernel_result (r : KernelResult Int) : Int :=
  match r with
  | .ok v => v
  | .error e => e.to_kernel_errno

/-- `read_callback::<T>` from file_operations.rs. `tread` is the driver's
`T::read` method, taking the address recovered from `private_data`, the
file handle, the writer view and the offset, and returning the mutated
writer view on success. The result pairs the returned ssize_t with the
final value of the `*offset` cell. -/
def read_callback
    (tread : Nat → file → UserSlicePtrWriter → Nat → KernelResult UserSlicePtrWriter)
    (valid : Nat → Nat → Bool) (f : file) (buf : Nat) (len : Nat)
    (offset : Int) : Int × Int :=
  match UserSlicePtr.new valid buf len with
  | .error e => (e.to_kernel_errno, offset)
  | .ok us =>
    match i64_try_into_u64 offset with
    | .error e => (e.to_kernel_errno, offset)
    | .ok off =>
      match tread f.private_data f us.writer off with
      | .error e => (e.to_kernel_errno, offset)
      | .ok data2 =>
        let written := len - data2.len
        ((written : Int), offset + (written : Int))

/-- `write_callback::<T>` from file_operations.rs. `twrite` is the
driver's `T::write`, returning its isize result (which the trampoline
discards) and the mutated reader view. -/
def write_callback
    (twrite : Nat → UserSlicePtrReader → Nat → KernelResult (Int × UserSlicePtrReader))
    (valid : Nat → Nat → Bool) (f : file) (buf : Nat) (len : Nat)
    (offset : Int) : Int × Int :=
  match UserSlicePtr.new valid buf len with
  | .error e => (e.to_kernel_errno, offset)
  | .ok us =>
    match i64_try_into_u64 offset with
    | .error e => (e.to_kernel_errno, offset)
    | .ok off =>
      match twrite f.private_data us.reader off with
      | .error e => (e.to_kernel_errno, offset)
      | .ok res =>
        let read := len - res.2.len
        ((read : Int), offset + (read : Int))

/-- `llseek_callback::<T>` from file_operations.rs. `tseek` is the
driver's `T::seek`. The whence code is matched against SEEK_SET, SEEK_CUR
and SEEK_END; SEEK_SET converts the i64 offset to u64, rejecting negative
values; an unknown whence is EINVAL. A successful new offset (u64) is
returned through the `as loff_t` wrapping cast. -/
def llseek_callback
    (tseek : Nat → file → SeekFrom → KernelResult Nat)
    (f : file) (offset : Int) (whence : Nat) : Int :=
  let offres : KernelResult SeekFrom :=
    if whence = SEEK_SET then
      match i64_try_into_u64 offset with
      | .error e => .error e
      | .ok n => .ok (SeekFrom.Start n)
    else if whence = SEEK_CUR then .ok (SeekFrom.Current offset)
    else if whence = SEEK_END then .ok (SeekFrom.End offset)
    else .error Error.EINVAL
  match offres with
  | .error e => e.to_kernel_errno
  | .ok off =>
    match tseek f.private_data f off with
    | .error e => e.to_kernel_errno
    | .ok r => u64_as_i64 r

/-- `fsync_callback::<T>` from file_operations.rs. Both loff_t bounds are
converted to u64 (rejecting negatives as EINVAL) before the driver's
`T::fsync` runs; the u32 success result is returned as c_int. -/
def fsync_callback
    (tfsync : Nat → file → Nat → Nat → Bool → KernelResult Nat)
    (f : file) (start : Int) (end_ : Int) (datasync : Int) : Int :=
  match i64_try_into_u64 start with
  | .error e => e.to_kernel_errno
  | .ok s =>
    match i64_try_into_u64 end_ with
    | .error e => e.to_kernel_errno
    | .ok e2 =>
      match tfsync f.private_data f s e2 (datasync != 0) with
      | .error e => e.to_kernel_errno
      | .ok res => (res : Int)

/-- `open_callback::<T>` from file_operations.rs, generic over the
wrapper type `W` (`T::Wrapper`): on success the opened instance is
released into a raw address via `into_pointer` and stored in the file's
`private_data` slot; on failure the errno is returned and the file is
untouched. -/
def open_callback {W : Type} (topen : KernelResult W) (into_pointer : W → Nat)
    (f : file) : Int × file :=
  match topen with
  | .error e => (e.to_kernel_errno, f)
  | .ok w => (0, { f with private_data := into_pointer w })

/-- `release_callback::<T>` from file_operations.rs, generic over the
wrapper type `W` and a driver-side world `σ` the release hook may affect:
`mem::replace` swaps null into `private_data`, the old value is reclaimed
exactly once via `from_pointer`, and the driver's `T::release` hook runs
with the reclaimed instance and the (already nulled) file. -/
def release_callback {W σ : Type} (from_pointer : Nat → W)
    (trelease : W → file → σ → σ) (f : file) (s : σ) : Int × file × σ :=
  let ptr := f.private_data
  let f2 := { f with private_data := 0 }
  let s2 := trelease (from_pointer ptr) f2 s
  (0, f2, s2)

/-- An `IoctlHandler` implementation: the four handler shapes of
file_operations.rs, each taking the file handle and returning an i32. -/
structure IoctlHandler where
  pure : file → Nat → Nat → KernelResult Int
  read : file → Nat → UserSlicePtrWriter → KernelResult Int
  write : file → Nat → UserSlicePtrReader → KernelResult Int
  read_write : file → Nat → UserSlicePtr → KernelResult Int

/-- The `IoctlHandler` trait's default methods: every handler shape
defaults to `Err(Error::EINVAL)`. -/
def IoctlHandler.default : IoctlHandler where
  pure := fun _ _ _ => .error Error.EINVAL
  read := fun _ _ _ => .error Error.EINVAL
  write := fun _ _ _ => .error Error.EINVAL
  read_write := fun _ _ _ => .error Error.EINVAL

/-- `IoctlCommand` from file_operations.rs: the raw u32 command word, the
raw argument, and the at-most-once-materialized user slice. -/
structure IoctlCommand where
  cmd : Nat
  arg : Nat
  user_slice : Option UserSlicePtr
deriving DecidableEq

/-- `IoctlCommand::new`: decode the direction field; when it is
_IOC_NONE no buffer is materialized, otherwise one bounded view of the
decoded size over the argument address is constructed (construction
failure is recorded as `none` via `.ok()`). -/
def IoctlCommand.new (valid : Nat → Nat → Bool) (cmd : Nat) (arg : Nat) :
    IoctlCommand :=
  let user_slice :=
    let dir := (cmd >>> _IOC_DIRSHIFT) &&& _IOC_DIRMASK
    if dir = _IOC_NONE then none
    else
      let size := (cmd >>> _IOC_SIZESHIFT) &&& _IOC_SIZEMASK
      (UserSlicePtr.new valid arg size).toOption
  { cmd := cmd, arg := arg, user_slice := user_slice }

/-- `IoctlCommand::dispatch`: route on the decoded direction bits. The
_IOC_NONE direction goes straight to the pure handler with the raw
command and argument; otherwise the stored slice is taken (EFAULT if it
was never constructed), and write/read/read-write directions pass a
reader view, a writer view, or the raw slice respectively; any other
direction is EINVAL. Returns the handler result and the mutated command
(whose slice has been taken). -/
def IoctlCommand.dispatch (self : IoctlCommand) (handler : IoctlHandler)
    (f : file) : KernelResult Int × IoctlCommand :=
  let dir := (self.cmd >>> _IOC_DIRSHIFT) &&& _IOC_DIRMASK
  if dir = _IOC_NONE then (handler.pure f self.cmd self.arg, self)
  else
    match self.user_slice with
    | none => (.error Error.EFAULT, self)
    | some data =>
      let rest := { self with user_slice := none }
      if dir = _IOC_WRITE then (handler.write f self.cmd data.reader, rest)
      else if dir = _IOC_READ then (handler.read f self.cmd data.writer, rest)
      else if dir = _IOC_READ ||| _IOC_WRITE then
        (handler.read_write f self.cmd data, rest)
      else (.error Error.EINVAL, rest)

/-- `unlocked_ioctl_callback::<T>`: builds the `IoctlCommand` from the
raw command and argument and runs the driver's `T::ioctl`. -/
def unlocked_ioctl_callback
    (tioctl : Nat → file → IoctlCommand → KernelResult Int)
    (valid : Nat → Nat → Bool) (f : file) (cmd : Nat) (arg : Nat) : Int :=
  match tioctl f.private_data f (IoctlCommand.new valid cmd arg) with
  | .error e => e.to_kernel_errno
  | .ok ret => ret

/-- `compat_ioctl_callback::<T>`: identical shape to the unlocked
variant, running `T::compat_ioctl`. -/
def compat_ioctl_callback
    (tcompat : Nat → file → IoctlCommand → KernelResult Int)
    (valid : Nat → Nat → Bool) (f : file) (cmd : Nat) (arg : Nat) : Int :=
  match tcompat f.private_data f (IoctlCommand.new valid cmd arg) with
  | .error e => e.to_kernel_errno
  | .ok ret => ret

/-- The `FileOperations` trait's default method for `read`:
`Err(Error::EINVAL)` for all arguments. -/
def FileOperations.default_read :
    Nat → file → UserSlicePtrWriter → Nat → KernelResult UserSlicePtrWriter :=
  fun _ _ _ _ => .error Error.EINVAL

/-- The `FileOperations` trait's default method for `write`. -/
def FileOperations.default_write :
    Nat → UserSlicePtrReader → Nat → KernelResult (Int × UserSlicePtrReader) :=
  fun _ _ _ => .error Error.EINVAL

/-- The `FileOperations` trait's default method for `seek`. -/
def FileOperations.default_seek : Nat → file → SeekFrom → KernelResult Nat :=
  fun _ _ _ => .error Error.EINVAL

/-- The `FileOperations` trait's default method for `ioctl`. -/
def FileOperations.default_ioctl :
    Nat → file → IoctlCommand → KernelResult Int :=
  fun _ _ _ => .error Error.EINVAL

/-- The `FileOperations` trait's default method for `compat_ioctl`. -/
def FileOperations.default_compat_ioctl :
    Nat → file → IoctlCommand → KernelResult Int :=
  fun _ _ _ => .error Error.EINVAL

/-- The `FileOperations` trait's default method for `fsync`. -/
def FileOperations.default_fsync :
    Nat → file → Nat → Nat → Bool → KernelResult Nat :=
  fun _ _ _ _ _ => .error Error.EINVAL

/-- A trampoline entry point installed in the dispatch table; one
constructor per callback the source instantiates. -/
inductive Callback where
  | open_cb
  | release_cb
  | read_cb
  | write_cb
  | llseek_cb
  | compat_ioctl_cb
  | fsync_cb
  | unlocked_ioctl_cb
deriving DecidableEq

/-- `ToUse` from file_operations.rs: which optional slots of
`struct file_operations` get a trampoline. -/
structure ToUse where
  read : Bool
  write : Bool
  seek : Bool
  ioctl : Bool
  compat_ioctl : Bool
  fsync : Bool
deriving DecidableEq

/-- `USE_NONE`: all capabilities declared false. -/
def USE_NONE : ToUse :=
  { read := false, write := false, seek := false, ioctl := false,
    compat_ioctl := false, fsync := false }

/-- The kernel's `struct file_operations` with the fields the source
initializes: function-pointer slots become `Option Callback` (`none` is a
null pointer), `mmap_supported_flags` its integer, and `owner` a raw
pointer value (0 for null). -/
structure file_operations where
  open_ : Option Callback
  release : Option Callback
  read : Option Callback
  write : Option Callback
  llseek : Option Callback
  check_flags : Option Callback
  compat_ioctl : Option Callback
  copy_file_range : Option Callback
  fallocate : Option Callback
  fadvise : Option Callback
  fasync : Option Callback
  flock : Option Callback
  flush : Option Callback
  fsync : Option Callback
  get_unmapped_area : Option Callback
  iterate : Option Callback
  iterate_shared : Option Callback
  iopoll : Option Callback
  lock : Option Callback
  mmap : Option Callback
  mmap_supported_flags : Nat
  owner : Nat
  poll : Option Callback
  read_iter : Option Callback
  remap_file_range : Option Callback
  sendpage : Option Callback
  setlease : Option Callback
  show_fdinfo : Option Callback
  splice_read : Option Callback
  splice_write : Option Callback
  unlocked_ioctl : Option Callback
  write_iter : Option Callback
deriving DecidableEq

/-- `FileOperationsVtable::<T>::VTABLE` from file_operations.rs, as a
function of the driver's `T::TO_USE` record: open and release always get
their trampolines, each optional slot gets its trampoline exactly when
the matching capability flag is true, and every other field is null or
zero. -/
def FileOperationsVtable.VTABLE (to_use : ToUse) : file_operations :=
  { open_ := some Callback.open_cb,
    release := some Callback.release_cb,
    read := if to_use.read then some Callback.read_cb else none,
    write := if to_use.write then some Callback.write_cb else none,
    llseek := if to_use.seek then some Callback.llseek_cb else none,
    check_flags := none,
    compat_ioctl := if to_use.compat_ioctl then some Callback.compat_ioctl_cb else none,
    copy_file_range := none,
    fallocate := none,
    fadvise := none,
    fasync := none,
    flock := none,
    flush := none,
    fsync := if to_use.fsync then some Callback.fsync_cb else none,
    get_unmapped_area := none,
    iterate := none,
    iterate_shared := none,
    iopoll := none,
    lock := none,
    mmap := none,
    mmap_supported_flags := 0,
    owner := 0,
    poll := none,
    read_iter := none,
    remap_file_range := none,
    sendpage := none,
    setlease := none,
    show_fdinfo := none,
    splice_read := none,
    splice_write := none,
    unlocked_ioctl := if to_use.ioctl then some Callback.unlocked_ioctl_cb else none,
    write_iter := none }

/-- Modelled from the spec: a heap of exclusively-owned allocations for
the ownership-transfer contract (`Box::into_raw`/`Box::from_raw` live in
the alloc crate, not under src/). An association list from addresses to
stored values. -/
abbrev Heap (α : Type) := List (Nat × α)

/-- Modelled from the spec: an exclusively-owned (`Box`) driver instance,
identified by the stable address of its allocation. -/
structure BoxM (α : Type) where
  addr : Nat
deriving DecidableEq

/-- Modelled from the spec: `Box::into_raw` — release into a raw address;
the heap is untouched (release must not deallocate). -/
def BoxM.into_pointer {α : Type} (b : BoxM α) (h : Heap α) : Nat × Heap α :=
  (b.addr, h)

/-- Modelled from the spec: `Box::from_raw` — reclaim the owned value
from an address produced by a matching release. -/
def BoxM.from_pointer {α : Type} (p : Nat) : BoxM α := ⟨p⟩

/-- The value a box observably holds: the heap cell at its address. -/
def BoxM.get {α : Type} (h : Heap α) (b : BoxM α) : Option α :=
  List.lookup b.addr h

/-- Modelled from the spec: a heap of shared reference-counted
allocations — each address holds the stored value and its strong count. -/
abbrev ArcHeap (α : Type) := List (Nat × (α × Nat))

/-- Modelled from the spec: a shared (`Arc`) driver instance handle,
identified by the address of its shared allocation. -/
structure ArcM (α : Type) where
  addr : Nat
deriving DecidableEq

/-- Modelled from the spec: `Arc::into_raw` — release one logical
ownership unit into a raw address; the heap (value and count) is
untouched. -/
def ArcM.into_pointer {α : Type} (a : ArcM α) (h : ArcHeap α) : Nat × ArcHeap α :=
  (a.addr, h)

/-- Modelled from the spec: `Arc::from_raw` — reclaim the handle from an
address produced by a matching release. -/
def ArcM.from_pointer {α : Type} (p : Nat) : ArcM α := ⟨p⟩

/-- The value an arc handle observably shares: the value component of the
heap cell at its address. -/
def ArcM.get {α : Type} (h : ArcHeap α) (a : ArcM α) : Option α :=
  (List.lookup a.addr h).map Prod.fst

/-- The kernel's `struct miscdevice` with the fields miscdev.rs sets:
the minor number, the device name (an opaque pointer value) and the
dispatch-table pointer. `Default::default()` zero-initializes. -/
structure miscdevice where
  minor : Int
  name : Nat
  fops : Option file_operations
deriving DecidableEq

/-- `bindings::miscdevice::default()`. -/
def miscdevice.default : miscdevice := { minor := 0, name := 0, fops := none }

/-- `Registration` from miscdev.rs: `mdev` is `Some` exactly after a
registration has completed successfully. -/
structure Registration where
  mdev : Option miscdevice
deriving DecidableEq

/-- `Registration::new`: not registered yet. -/
def Registration.new : Registration := { mdev := none }

/-- `Registration::register::<T>` from miscdev.rs. Already-registered
objects fail with EINVAL and are left unchanged. Otherwise a miscdevice
is built from the driver's vtable, name and minor (the dynamic-minor
marker when none is given) and handed to the host's `misc_register`,
whose return code is the `host_ret` parameter: a negative code undoes the
`mdev` field and surfaces as the wrapped errno, otherwise the
registration sticks. -/
def Registration.register (self : Registration) (to_use : ToUse) (name : Nat)
    (minor : Option Int) (host_ret : Int) : KernelResult Unit × Registration :=
  if self.mdev.isSome then (.error Error.EINVAL, self)
  else
    let dev : miscdevice :=
      { minor := minor.getD (MISC_DYNAMIC_MINOR : Int),
        name := name,
        fops := some (FileOperationsVtable.VTABLE to_use) }
    if host_ret < 0 then
      (.error (Error.from_kernel_errno host_ret), { mdev := none })
    else
      (.ok (), { mdev := some dev })

/-- `Drop for Registration` from miscdev.rs: whether dropping the object
calls the host's `misc_deregister` — it does exactly when `mdev` holds a
device. -/
def Registration.drop_deregisters (self : Registration) : Bool :=
  self.mdev.isSome

theorem isSome_if_some {α : Type} (b : Bool) (c : α) :
    (if b = true then some c else none).isSome = b := by
  cases b <;> simp

/-- C2: for every capability-flag record, the built dispatch table has a
non-null function-pointer slot exactly for each capability declared true,
a null slot for each declared false, always-populated open and release
slots, and every other field null or zero. -/
theorem C2_vtable_slots (t : ToUse) :
    (FileOperationsVtable.VTABLE t).open_.isSome = true ∧
    (FileOperationsVtable.VTABLE t).release.isSome = true ∧
    (FileOperationsVtable.VTABLE t).read.isSome = t.read ∧
    (FileOperationsVtable.VTABLE t).write.isSome = t.write ∧
    (FileOperationsVtable.VTABLE t).llseek.isSome = t.seek ∧
    (FileOperationsVtable.VTABLE t).unlocked_ioctl.isSome = t.ioctl ∧
    (FileOperationsVtable.VTABLE t).compat_ioctl.isSome = t.compat_ioctl ∧
    (FileOperationsVtable.VTABLE t).fsync.isSome = t.fsync ∧
    (FileOperationsVtable.VTABLE t).check_flags = none ∧
    (FileOperationsVtable.VTABLE t).copy_file_range = none ∧
    (FileOperationsVtable.VTABLE t).fallocate = none ∧
    (FileOperationsVtable.VTABLE t).fadvise = none ∧
    (FileOperationsVtable.VTABLE t).fasync = none ∧
    (FileOperationsVtable.VTABLE t).flock = none ∧
    (FileOperationsVtable.VTABLE t).flush = none ∧
    (FileOperationsVtable.VTABLE t).get_unmapped_area = none ∧
    (FileOperationsVtable.VTABLE t).iterate = none ∧
    (FileOperationsVtable.VTABLE t).iterate_shared = none ∧
    (FileOperationsVtable.VTABLE t).iopoll = none ∧
    (FileOperationsVtable.VTABLE t).lock = none ∧
    (FileOperationsVtable.VTABLE t).mmap = none ∧
    (FileOperationsVtable.VTABLE t).poll = none ∧
    (FileOperationsVtable.VTABLE t).read_iter = none ∧
    (FileOperationsVtable.VTABLE t).remap_file_range = none ∧
    (FileOperationsVtable.VTABLE t).sendpage = none ∧
    (FileOperationsVtable.VTABLE t).setlease = none ∧
    (FileOperationsVtable.VTABLE t).show_fdinfo = none ∧
    (FileOperationsVtable.VTABLE t).splice_read = none ∧
    (FileOperationsVtable.VTABLE t).splice_write = none ∧
    (FileOperationsVtable.VTABLE t).write_iter = none ∧
    (FileOperationsVtable.VTABLE t).mmap_supported_flags = 0 ∧
    (FileOperationsVtable.VTABLE t).owner = 0 := by
  refine ⟨rfl, rfl, isSome_if_some t.read _, isSome_if_some t.write _,
    isSome_if_some t.seek _, isSome_if_some t.ioctl _,
    isSome_if_some t.compat_ioctl _, isSome_if_some t.fsync _,
    rfl, rfl, rfl, rfl, rfl, rfl, rfl, rfl, rfl, rfl, rfl, rfl, rfl, rfl,
    rfl, rfl, rfl, rfl, rfl, rfl, rfl, rfl, rfl, rfl⟩

/-- C5: the release trampoline first swaps null into the file's
private_data slot, then reclaims the old slot value exactly once via
from_pointer and runs the driver's release hook with the reclaimed
instance and the already-nulled file; afterwards the slot is null, so a
further run of the trampoline on the resulting file reclaims only from
the null address, never from the original one. -/
theorem C5_release_nulls_then_reclaims {W σ : Type} (from_pointer : Nat → W)
    (trelease : W → file → σ → σ) (f : file) (s : σ) :
    release_callback from_pointer trelease f s =
      (0, { f with private_data := 0 },
       trelease (from_pointer f.private_data) { f with private_data := 0 } s) ∧
    (release_callback from_pointer trelease f s).2.1.private_data = 0 ∧
    (∀ s2 : σ, release_callback from_pointer trelease
        { f with private_data := 0 } s2 =
      (0, { f with private_data := 0 },
       trelease (from_pointer 0) { f with private_data := 0 } s2)) :=
  ⟨rfl, rfl, fun _ => rfl⟩

/-- C6: for both ownership strategies, releasing an instance into a raw
address (into_pointer) leaves the heap untouched (no deallocation), and
reclaiming that address exactly once (from_pointer) reconstructs a handle
equal to the original whose observable stored value is unchanged. -/
theorem C6_pointer_roundtrip {α : Type} (h : Heap α) (b : BoxM α)
    (ha : ArcHeap α) (a : ArcM α) :
    (BoxM.into_pointer b h).2 = h ∧
    BoxM.from_pointer (BoxM.into_pointer b h).1 = b ∧
    BoxM.get h (BoxM.from_pointer (BoxM.into_pointer b h).1) = BoxM.get h b ∧
    (ArcM.into_pointer a ha).2 = ha ∧
    ArcM.from_pointer (ArcM.into_pointer a ha).1 = a ∧
    ArcM.get ha (ArcM.from_pointer (ArcM.into_pointer a ha).1) = ArcM.get ha a :=
  ⟨rfl, rfl, rfl, rfl, rfl, rfl⟩

/-- C8: every defaulted optional interface method of FileOperations
(read, write, seek, ioctl, compat_ioctl, fsync) and every defaulted
IoctlHandler shape (pure, read, write, read_write) returns the
unsupported-operation error kind — realized in this code base as EINVAL —
for all argument values. -/
theorem C8_defaults_unsupported :
    (∀ p f w off, FileOperations.default_read p f w off =
      .error unsupportedError) ∧
    (∀ p r off, FileOperations.default_write p r off =
      .error unsupportedError) ∧
    (∀ p f sf, FileOperations.default_seek p f sf = .error unsupportedError) ∧
    (∀ p f c, FileOperations.default_ioctl p f c = .error unsupportedError) ∧
    (∀ p f c, FileOperations.default_compat_ioctl p f c =
      .error unsupportedError) ∧
    (∀ p f s e d, FileOperations.default_fsync p f s e d =
      .error unsupportedError) ∧
    (∀ f c a, IoctlHandler.default.pure f c a = .error unsupportedError) ∧
    (∀ f c w, IoctlHandler.default.read f c w = .error unsupportedError) ∧
    (∀ f c r, IoctlHandler.default.write f c r = .error unsupportedError) ∧
    (∀ f c u, IoctlHandler.default.read_write f c u =
      .error unsupportedError) := by
  refine ⟨?_, ?_, ?_, ?_, ?_, ?_, ?_, ?_, ?_, ?_⟩ <;> intros <;> rfl

/-- C1: for every packed ioctl command word, dispatch routes by the
decoded direction bits: direction none goes only to the pure handler
with the raw command and argument and no buffer is materialized;
read-only goes only to the read handler with a writer view of exactly
the decoded size; write-only goes only to the write handler with a
reader view of exactly the decoded size; read-and-write goes only to the
read_write handler with the raw view; when the direction implies a
buffer that could not be validated at construction, dispatch fails with
EFAULT without calling any handler; and no direction value outside
none/read/write/both exists, the two direction bits always decoding
below four (so the dispatcher's EINVAL arm for other values is
unreachable and the claim's last case holds vacuously). -/
theorem C1_ioctl_dispatch_routing (valid : Nat → Nat → Bool)
    (handler : IoctlHandler) (f : file) (cmd arg : Nat)
    (hcmd : cmd < 2 ^ 32) :
    ((cmd >>> _IOC_DIRSHIFT) &&& _IOC_DIRMASK = _IOC_NONE →
      (IoctlCommand.new valid cmd arg).user_slice = none ∧
      (IoctlCommand.new valid cmd arg).dispatch handler f =
        (handler.pure f cmd arg, IoctlCommand.new valid cmd arg)) ∧
    ((cmd >>> _IOC_DIRSHIFT) &&& _IOC_DIRMASK = _IOC_READ →
      valid arg ((cmd >>> _IOC_SIZESHIFT) &&& _IOC_SIZEMASK) = true →
      (IoctlCommand.new valid cmd arg).dispatch handler f =
        (handler.read f cmd
          (UserSlicePtr.mk arg ((cmd >>> _IOC_SIZESHIFT) &&& _IOC_SIZEMASK)).writer,
         { cmd := cmd, arg := arg, user_slice := none }) ∧
      (UserSlicePtr.mk arg ((cmd >>> _IOC_SIZESHIFT) &&& _IOC_SIZEMASK)).writer.len =
        (cmd >>> _IOC_SIZESHIFT) &&& _IOC_SIZEMASK) ∧
    ((cmd >>> _IOC_DIRSHIFT) &&& _IOC_DIRMASK = _IOC_WRITE →
      valid arg ((cmd >>> _IOC_SIZESHIFT) &&& _IOC_SIZEMASK) = true →
      (IoctlCommand.new valid cmd arg).dispatch handler f =
        (handler.write f cmd
          (UserSlicePtr.mk arg ((cmd >>> _IOC_SIZESHIFT) &&& _IOC_SIZEMASK)).reader,
         { cmd := cmd, arg := arg, user_slice := none }) ∧
      (UserSlicePtr.mk arg ((cmd >>> _IOC_SIZESHIFT) &&& _IOC_SIZEMASK)).reader.len =
        (cmd >>> _IOC_SIZESHIFT) &&& _IOC_SIZEMASK) ∧
    ((cmd >>> _IOC_DIRSHIFT) &&& _IOC_DIRMASK = (_IOC_READ ||| _IOC_WRITE) →
      valid arg ((cmd >>> _IOC_SIZESHIFT) &&& _IOC_SIZEMASK) = true →
      (IoctlCommand.new valid cmd arg).dispatch handler f =
        (handler.read_write f cmd
          (UserSlicePtr.mk arg ((cmd >>> _IOC_SIZESHIFT) &&& _IOC_SIZEMASK)),
         { cmd := cmd, arg := arg, user_slice := none })) ∧
    ((cmd >>> _IOC_DIRSHIFT) &&& _IOC_DIRMASK ≠ _IOC_NONE →
      valid arg ((cmd >>> _IOC_SIZESHIFT) &&& _IOC_SIZEMASK) = false →
      (IoctlCommand.new valid cmd arg).dispatch handler f =
        (Except.error Error.EFAULT, IoctlCommand.new valid cmd arg)) ∧
    ((cmd >>> _IOC_DIRSHIFT) &&& _IOC_DIRMASK < 4) := by
  refine ⟨?_, ?_, ?_, ?_, ?_, ?_⟩
  · intro h0
    simp [IoctlCommand.new, IoctlCommand.dispatch, h0]
  · intro h2 hv
    have e1 : _IOC_READ ≠ _IOC_NONE := by decide
    have e2 : _IOC_READ ≠ _IOC_WRITE := by decide
    simp [IoctlCommand.new, IoctlCommand.dispatch, UserSlicePtr.new,
      UserSlicePtr.writer, Except.toOption, hv, h2, e1, e2]
  · intro h1 hv
    have e1 : _IOC_WRITE ≠ _IOC_NONE := by decide
    simp [IoctlCommand.new, IoctlCommand.dispatch, UserSlicePtr.new,
      UserSlicePtr.reader, Except.toOption, hv, h1, e1]
  · intro h3 hv
    have e1 : (_IOC_READ ||| _IOC_WRITE) ≠ _IOC_NONE := by decide
    have e2 : (_IOC_READ ||| _IOC_WRITE) ≠ _IOC_WRITE := by decide
    have e3 : (_IOC_READ ||| _IOC_WRITE) ≠ _IOC_READ := by decide
    simp [IoctlCommand.new, IoctlCommand.dispatch, UserSlicePtr.new,
      Except.toOption, hv, h3, e1, e2, e3]
  · intro hd hv
    simp [IoctlCommand.new, IoctlCommand.dispatch, UserSlicePtr.new,
      Except.toOption, hv, hd]
  · have h := Nat.and_le_right (n := cmd >>> _IOC_DIRSHIFT) (m := _IOC_DIRMASK)
    simp only [_IOC_DIRMASK] at h ⊢
    omega

/-- A concrete ioctl handler whose four shapes return distinguishable
codes, used to witness the dispatcher theorems at concrete inputs. -/
def handlerW : IoctlHandler where
  pure := fun _ c a => .ok ((c : Int) + (a : Int))
  read := fun _ _ w => .ok ((w.len : Int))
  write := fun _ _ r => .ok ((r.len : Int) + 100)
  read_write := fun _ _ u => .ok ((u.len : Int) + 200)

/-- A concrete host file record used by the witnesses. -/
def fileW : file := { private_data := 1, f_pos := 0, f_flags := 0 }

/-- Witness for C1 at the concrete command word 2148532231, which decodes
to direction read-only with size 16: dispatch hands the read handler a
writer view of length 16. -/
theorem C1_ioctl_dispatch_routing_witness :
    (IoctlCommand.new (fun _ _ => true) 2148532231 5).dispatch handlerW fileW =
      (handlerW.read fileW 2148532231 (UserSlicePtr.mk 5 16).writer,
       { cmd := 2148532231, arg := 5, user_slice := none }) ∧
    (UserSlicePtr.mk 5 16).writer.len = 16 :=
  (C1_ioctl_dispatch_routing (fun _ _ => true) handlerW fileW 2148532231 5
    (by norm_num)).2.1 (by decide) rfl

/-- C3: on every successful read or write trampoline call with buffer
length len, the value returned to the host is len minus the bounded
view's remaining length after the driver method returns; for write the
driver's own result value (quantified arbitrarily here) never enters the
returned count. -/
theorem C3_count_from_view
    (tread : Nat → file → UserSlicePtrWriter → Nat → KernelResult UserSlicePtrWriter)
    (twrite : Nat → UserSlicePtrReader → Nat → KernelResult (Int × UserSlicePtrReader))
    (valid : Nat → Nat → Bool) (f : file) (buf len : Nat) (offset : Int)
    (hv : valid buf len = true) (hoff : 0 ≤ offset) :
    (∀ w2, tread f.private_data f (UserSlicePtr.mk buf len).writer offset.toNat =
        .ok w2 →
      read_callback tread valid f buf len offset =
        (((len - w2.len : Nat) : Int), offset + ((len - w2.len : Nat) : Int))) ∧
    (∀ ret r2, twrite f.private_data (UserSlicePtr.mk buf len).reader offset.toNat =
        .ok (ret, r2) →
      write_callback twrite valid f buf len offset =
        (((len - r2.len : Nat) : Int), offset + ((len - r2.len : Nat) : Int))) := by
  constructor
  · intro w2 hw
    simp only [UserSlicePtr.writer] at hw
    simp [read_callback, UserSlicePtr.new, UserSlicePtr.writer,
      i64_try_into_u64, hv, hoff, hw]
  · intro ret r2 hw
    simp only [UserSlicePtr.reader] at hw
    simp [write_callback, UserSlicePtr.new, UserSlicePtr.reader,
      i64_try_into_u64, hv, hoff, hw]

/-- A concrete driver read method that consumes 10 bytes of the writer
view, used by the witnesses. -/
def treadW : Nat → file → UserSlicePtrWriter → Nat → KernelResult UserSlicePtrWriter :=
  fun _ _ w _ => .ok ⟨w.ptr + 10, w.len - 10⟩

/-- A concrete driver write method that consumes 10 bytes of the reader
view and reports the (ignored) count 999, used by the witnesses. -/
def twriteW : Nat → UserSlicePtrReader → Nat → KernelResult (Int × UserSlicePtrReader) :=
  fun _ r _ => .ok (999, ⟨r.ptr + 10, r.len - 10⟩)

/-- Witness for C3 with a 16-byte buffer at offset 3: the driver methods
leave 6 bytes remaining, so both trampolines report 10 bytes and the
offset cell moves to 13. -/
theorem C3_count_from_view_witness :
    read_callback treadW (fun _ _ => true) fileW 5 16 3 =
      (((16 - 6 : Nat) : Int), 3 + ((16 - 6 : Nat) : Int)) ∧
    write_callback twriteW (fun _ _ => true) fileW 5 16 3 =
      (((16 - 6 : Nat) : Int), 3 + ((16 - 6 : Nat) : Int)) :=
  ⟨(C3_count_from_view treadW twriteW (fun _ _ => true) fileW 5 16 3 rfl
      (by norm_num)).1 ⟨15, 6⟩ rfl,
   (C3_count_from_view treadW twriteW (fun _ _ => true) fileW 5 16 3 rfl
      (by norm_num)).2 999 ⟨15, 6⟩ rfl⟩

/-- C10: on every successful read or write trampoline call the host's
offset cell advances by exactly the value returned to the host; on every
failure path — buffer validation failure, out-of-domain offset, or a
driver-reported error — the offset cell is left unchanged. -/
theorem C10_offset_frame
    (tread : Nat → file → UserSlicePtrWriter → Nat → KernelResult UserSlicePtrWriter)
    (twrite : Nat → UserSlicePtrReader → Nat → KernelResult (Int × UserSlicePtrReader))
    (valid : Nat → Nat → Bool) (f : file) (buf len : Nat) (offset : Int) :
    (∀ w2, valid buf len = true → 0 ≤ offset →
      tread f.private_data f (UserSlicePtr.mk buf len).writer offset.toNat =
        .ok w2 →
      (read_callback tread valid f buf len offset).2 =
        offset + (read_callback tread valid f buf len offset).1) ∧
    (∀ ret r2, valid buf len = true → 0 ≤ offset →
      twrite f.private_data (UserSlicePtr.mk buf len).reader offset.toNat =
        .ok (ret, r2) →
      (write_callback twrite valid f buf len offset).2 =
        offset + (write_callback twrite valid f buf len offset).1) ∧
    (valid buf len = false →
      read_callback tread valid f buf len offset =
        (Error.EFAULT.to_kernel_errno, offset) ∧
      write_callback twrite valid f buf len offset =
        (Error.EFAULT.to_kernel_errno, offset)) ∧
    (offset < 0 →
      (read_callback tread valid f buf len offset).2 = offset ∧
      (write_callback twrite valid f buf len offset).2 = offset) ∧
    (∀ e, valid buf len = true → 0 ≤ offset →
      tread f.private_data f (UserSlicePtr.mk buf len).writer offset.toNat =
        .error e →
      read_callback tread valid f buf len offset = (e.to_kernel_errno, offset)) ∧
    (∀ e, valid buf len = true → 0 ≤ offset →
      twrite f.private_data (UserSlicePtr.mk buf len).reader offset.toNat =
        .error e →
      write_callback twrite valid f buf len offset = (e.to_kernel_errno, offset)) := by
  refine ⟨?_, ?_, ?_, ?_, ?_, ?_⟩
  · intro w2 hv hoff hw
    simp only [UserSlicePtr.writer] at hw
    simp [read_callback, UserSlicePtr.new, UserSlicePtr.writer,
      i64_try_into_u64, hv, hoff, hw]
  · intro ret r2 hv hoff hw
    simp only [UserSlicePtr.reader] at hw
    simp [write_callback, UserSlicePtr.new, UserSlicePtr.reader,
      i64_try_into_u64, hv, hoff, hw]
  · intro hv
    constructor <;>
      simp [read_callback, write_callback, UserSlicePtr.new, hv]
  · intro hoff
    have hno : ¬ (0 ≤ offset) := by omega
    cases hvb : valid buf len <;>
      constructor <;>
        simp [read_callback, write_callback, UserSlicePtr.new,
          i64_try_into_u64, hvb, hno]
  · intro e hv hoff hw
    simp only [UserSlicePtr.writer] at hw
    simp [read_callback, UserSlicePtr.new, UserSlicePtr.writer,
      i64_try_into_u64, hv, hoff, hw]
  · intro e hv hoff hw
    simp only [UserSlicePtr.reader] at hw
    simp [write_callback, UserSlicePtr.new, UserSlicePtr.reader,
      i64_try_into_u64, hv, hoff, hw]

/-- Witness for C10: the successful 10-byte read at offset 3 leaves the
offset cell at the old offset plus the returned count. -/
theorem C10_offset_frame_witness :
    (read_callback treadW (fun _ _ => true) fileW 5 16 3).2 =
      3 + (read_callback treadW (fun _ _ => true) fileW 5 16 3).1 :=
  (C10_offset_frame treadW twriteW (fun _ _ => true) fileW 5 16 3).1
    ⟨15, 6⟩ rfl (by norm_num) rfl

/-- Counterexample to C4 as stated: with a buffer that fails validation
and the out-of-domain offset -1, the read trampoline returns the
addressing failure EFAULT (buffer validation runs first), not the
claimed invalid-argument error — though no driver method runs. -/
theorem C4_offset_claim_counterexample :
    read_callback treadW (fun _ _ => false) fileW 0 4 (-1) =
      (Error.EFAULT.to_kernel_errno, -1) ∧
    Error.EFAULT.to_kernel_errno ≠ Error.EINVAL.to_kernel_errno :=
  ⟨rfl, by decide⟩

/-- C4 (amended): every offset outside the non-negative signed-64-bit
domain is rejected before any driver interface method is invoked — as
the invalid-argument error once buffer validation has succeeded (for
read and write the addressing failure may be returned instead when the
buffer is also invalid); the rejection never consults the driver method
(the result is the same for any two methods); and a method that does run
only ever sees offsets in [0, 2^63): trampolines agree whenever their
driver methods agree on all offsets below 2^63. -/
theorem C4_offset_domain
    (tread tread2 : Nat → file → UserSlicePtrWriter → Nat → KernelResult UserSlicePtrWriter)
    (twrite twrite2 : Nat → UserSlicePtrReader → Nat → KernelResult (Int × UserSlicePtrReader))
    (tseek tseek2 : Nat → file → SeekFrom → KernelResult Nat)
    (tfsync tfsync2 : Nat → file → Nat → Nat → Bool → KernelResult Nat)
    (valid : Nat → Nat → Bool) (f : file) (buf len : Nat)
    (offset start end_ : Int) (datasync : Int) :
    (offset < 0 → valid buf len = true →
      read_callback tread valid f buf len offset =
        (Error.EINVAL.to_kernel_errno, offset) ∧
      write_callback twrite valid f buf len offset =
        (Error.EINVAL.to_kernel_errno, offset)) ∧
    (offset < 0 →
      read_callback tread valid f buf len offset =
        read_callback tread2 valid f buf len offset ∧
      write_callback twrite valid f buf len offset =
        write_callback twrite2 valid f buf len offset ∧
      llseek_callback tseek f offset SEEK_SET =
        llseek_callback tseek2 f offset SEEK_SET ∧
      llseek_callback tseek f offset SEEK_SET = Error.EINVAL.to_kernel_errno) ∧
    (start < 0 ∨ end_ < 0 →
      fsync_callback tfsync f start end_ datasync = Error.EINVAL.to_kernel_errno ∧
      fsync_callback tfsync f start end_ datasync =
        fsync_callback tfsync2 f start end_ datasync) ∧
    (offset < 2 ^ 63 →
      ((∀ p g w o, o < 2 ^ 63 → tread p g w o = tread2 p g w o) →
        read_callback tread valid f buf len offset =
          read_callback tread2 valid f buf len offset) ∧
      ((∀ p r o, o < 2 ^ 63 → twrite p r o = twrite2 p r o) →
        write_callback twrite valid f buf len offset =
          write_callback twrite2 valid f buf len offset) ∧
      ((∀ p g n, n < 2 ^ 63 → tseek p g (SeekFrom.Start n) =
          tseek2 p g (SeekFrom.Start n)) →
        llseek_callback tseek f offset SEEK_SET =
          llseek_callback tseek2 f offset SEEK_SET)) ∧
    (start < 2 ^ 63 → end_ < 2 ^ 63 →
      (∀ p g a b d, a < 2 ^ 63 → b < 2 ^ 63 → tfsync p g a b d =
        tfsync2 p g a b d) →
      fsync_callback tfsync f start end_ datasync =
        fsync_callback tfsync2 f start end_ datasync) := by
  refine ⟨?_, ?_, ?_, ?_, ?_⟩
  · intro hneg hv
    have hno : ¬ (0 ≤ offset) := by omega
    constructor <;>
      simp [read_callback, write_callback, UserSlicePtr.new,
        i64_try_into_u64, hv, hno]
  · intro hneg
    have hno : ¬ (0 ≤ offset) := by omega
    refine ⟨?_, ?_, ?_, ?_⟩ <;>
      cases hvb : valid buf len <;>
        simp [read_callback, write_callback, llseek_callback,
          UserSlicePtr.new, i64_try_into_u64, SEEK_SET, hvb, hno]
  · intro hse
    have h1 : ¬ (0 ≤ start) ∨ (0 ≤ start ∧ ¬ (0 ≤ end_)) := by omega
    rcases h1 with h1 | ⟨h1, h2⟩
    · constructor <;> simp [fsync_callback, i64_try_into_u64, h1]
    · constructor <;> simp [fsync_callback, i64_try_into_u64, h1, h2]
  · intro hub
    refine ⟨?_, ?_, ?_⟩
    · intro hagree
      cases hvb : valid buf len
      · simp [read_callback, UserSlicePtr.new, hvb]
      · rcases Int.lt_or_le offset 0 with hneg | hpos
        · have hno : ¬ (0 ≤ offset) := by omega
          simp [read_callback, UserSlicePtr.new, i64_try_into_u64, hvb, hno]
        · have hlt : offset.toNat < 2 ^ 63 := by omega
          simp [read_callback, UserSlicePtr.new, i64_try_into_u64, hvb, hpos,
            hagree _ _ _ _ hlt]
    · intro hagree
      cases hvb : valid buf len
      · simp [write_callback, UserSlicePtr.new, hvb]
      · rcases Int.lt_or_le offset 0 with hneg | hpos
        · have hno : ¬ (0 ≤ offset) := by omega
          simp [write_callback, UserSlicePtr.new, i64_try_into_u64, hvb, hno]
        · have hlt : offset.toNat < 2 ^ 63 := by omega
          simp [write_callback, UserSlicePtr.new, i64_try_into_u64, hvb, hpos,
            hagree _ _ _ hlt]
    · intro hagree
      rcases Int.lt_or_le offset 0 with hneg | hpos
      · have hno : ¬ (0 ≤ offset) := by omega
        simp [llseek_callback, i64_try_into_u64, SEEK_SET, hno]
      · have hlt : offset.toNat < 2 ^ 63 := by omega
        simp [llseek_callback, i64_try_into_u64, SEEK_SET, hpos,
          hagree _ _ _ hlt]
  · intro hs he hagree
    rcases Int.lt_or_le start 0 with hneg | hpos
    · have hno : ¬ (0 ≤ start) := by omega
      simp [fsync_callback, i64_try_into_u64, hno]
    · rcases Int.lt_or_le end_ 0 with hneg2 | hpos2
      · have hno : ¬ (0 ≤ end_) := by omega
        simp [fsync_callback, i64_try_into_u64, hpos, hno]
      · have hlt1 : start.toNat < 2 ^ 63 := by omega
        have hlt2 : end_.toNat < 2 ^ 63 := by omega
        simp [fsync_callback, i64_try_into_u64, hpos, hpos2,
          hagree _ _ _ _ _ hlt1 hlt2]

/-- Witness for the amended C4: with a valid buffer and offset -7, the
read trampoline rejects with EINVAL and leaves the offset cell at -7. -/
theorem C4_offset_domain_witness :
    read_callback treadW (fun _ _ => true) fileW 5 16 (-7) =
      (Error.EINVAL.to_kernel_errno, -7) ∧
    write_callback twriteW (fun _ _ => true) fileW 5 16 (-7) =
      (Error.EINVAL.to_kernel_errno, -7) :=
  (C4_offset_domain treadW treadW twriteW twriteW
    FileOperations.default_seek FileOperations.default_seek
    FileOperations.default_fsync FileOperations.default_fsync
    (fun _ _ => true) fileW 5 16 (-7) 0 0 0).1 (by norm_num) rfl

/-- A driver ioctl method that reports success with the negative code
-5, exercising the success-value passthrough of the ioctl trampoline. -/
def tioctlNeg : Nat → file → IoctlCommand → KernelResult Int :=
  fun _ _ _ => .ok (-5)

/-- Counterexample to C7 as stated: the ioctl trampoline returns the
driver's success code unchanged, so a driver success carrying the
negative code -5 reaches the host as the negative value -5 — not every
success converts to a non-negative count or code. -/
theorem C7_success_sign_counterexample :
    unlocked_ioctl_callback tioctlNeg (fun _ _ => true) fileW 0 0 = -5 ∧
    (-5 : Int) < 0 :=
  ⟨rfl, by decide⟩

/-- C7 (amended): every driver-reported error kind (whose errno is
negative, as all kernel errnos are) is converted by every trampoline to
its negative signed code; read and write successes always return a
non-negative count, open success returns 0, release returns 0, fsync
success returns its non-negative u32 code, seek success is non-negative
whenever the returned offset lies in the supported sub-2^63 domain, and
the ioctl trampolines pass the driver's success code through unchanged —
non-negative exactly when the driver's code is. -/
theorem C7_error_conversion {W σ : Type}
    (tread : Nat → file → UserSlicePtrWriter → Nat → KernelResult UserSlicePtrWriter)
    (twrite : Nat → UserSlicePtrReader → Nat → KernelResult (Int × UserSlicePtrReader))
    (tseek : Nat → file → SeekFrom → KernelResult Nat)
    (tfsync : Nat → file → Nat → Nat → Bool → KernelResult Nat)
    (tioctl tcompat : Nat → file → IoctlCommand → KernelResult Int)
    (topen : KernelResult W) (into_pointer : W → Nat) (from_pointer : Nat → W)
    (trelease : W → file → σ → σ) (s : σ)
    (valid : Nat → Nat → Bool) (f : file) (buf len : Nat)
    (offset start end_ : Int) (datasync : Int) (cmd arg : Nat)
    (e : Error) (he : e.code < 0) :
    (valid buf len = true → 0 ≤ offset →
      tread f.private_data f (UserSlicePtr.mk buf len).writer offset.toNat =
        .error e →
      read_callback tread valid f buf len offset = (e.to_kernel_errno, offset) ∧
      e.to_kernel_errno < 0) ∧
    (∀ w2, valid buf len = true → 0 ≤ offset →
      tread f.private_data f (UserSlicePtr.mk buf len).writer offset.toNat =
        .ok w2 →
      0 ≤ (read_callback tread valid f buf len offset).1) ∧
    (valid buf len = true → 0 ≤ offset →
      twrite f.private_data (UserSlicePtr.mk buf len).reader offset.toNat =
        .error e →
      write_callback twrite valid f buf len offset = (e.to_kernel_errno, offset) ∧
      e.to_kernel_errno < 0) ∧
    (∀ ret r2, valid buf len = true → 0 ≤ offset →
      twrite f.private_data (UserSlicePtr.mk buf len).reader offset.toNat =
        .ok (ret, r2) →
      0 ≤ (write_callback twrite valid f buf len offset).1) ∧
    (tseek f.private_data f (SeekFrom.Current offset) = .error e →
      llseek_callback tseek f offset SEEK_CUR = e.to_kernel_errno ∧
      e.to_kernel_errno < 0) ∧
    (∀ r, tseek f.private_data f (SeekFrom.Current offset) = .ok r →
      r < 2 ^ 63 → 0 ≤ llseek_callback tseek f offset SEEK_CUR) ∧
    (0 ≤ start → 0 ≤ end_ →
      tfsync f.private_data f start.toNat end_.toNat (datasync != 0) =
        .error e →
      fsync_callback tfsync f start end_ datasync = e.to_kernel_errno ∧
      e.to_kernel_errno < 0) ∧
    (∀ res, 0 ≤ start → 0 ≤ end_ →
      tfsync f.private_data f start.toNat end_.toNat (datasync != 0) =
        .ok res →
      0 ≤ fsync_callback tfsync f start end_ datasync) ∧
    (tioctl f.private_data f (IoctlCommand.new valid cmd arg) = .error e →
      unlocked_ioctl_callback tioctl valid f cmd arg = e.to_kernel_errno ∧
      e.to_kernel_errno < 0) ∧
    (∀ ret, tioctl f.private_data f (IoctlCommand.new valid cmd arg) = .ok ret →
      unlocked_ioctl_callback tioctl valid f cmd arg = ret) ∧
    (tcompat f.private_data f (IoctlCommand.new valid cmd arg) = .error e →
      compat_ioctl_callback tcompat valid f cmd arg = e.to_kernel_errno ∧
      e.to_kernel_errno < 0) ∧
    (∀ ret, tcompat f.private_data f (IoctlCommand.new valid cmd arg) = .ok ret →
      compat_ioctl_callback tcompat valid f cmd arg = ret) ∧
    (topen = .error e →
      open_callback topen into_pointer f = (e.to_kernel_errno, f) ∧
      e.to_kernel_errno < 0) ∧
    (∀ w, topen = .ok w → (open_callback topen into_pointer f).1 = 0) ∧
    ((release_callback from_pointer trelease f s).1 = 0) := by
  refine ⟨?_, ?_, ?_, ?_, ?_, ?_, ?_, ?_, ?_, ?_, ?_, ?_, ?_, ?_, rfl⟩
  · intro hv hoff hw
    simp only [UserSlicePtr.writer] at hw
    exact ⟨by simp [read_callback, UserSlicePtr.new, UserSlicePtr.writer,
      i64_try_into_u64, hv, hoff, hw], by simpa [Error.to_kernel_errno] using he⟩
  · intro w2 hv hoff hw
    simp only [UserSlicePtr.writer] at hw
    simp [read_callback, UserSlicePtr.new, UserSlicePtr.writer,
      i64_try_into_u64, hv, hoff, hw]
  · intro hv hoff hw
    simp only [UserSlicePtr.reader] at hw
    exact ⟨by simp [write_callback, UserSlicePtr.new, UserSlicePtr.reader,
      i64_try_into_u64, hv, hoff, hw], by simpa [Error.to_kernel_errno] using he⟩
  · intro ret r2 hv hoff hw
    simp only [UserSlicePtr.reader] at hw
    simp [write_callback, UserSlicePtr.new, UserSlicePtr.reader,
      i64_try_into_u64, hv, hoff, hw]
  · intro hw
    exact ⟨by simp [llseek_callback, SEEK_CUR, SEEK_SET, hw],
      by simpa [Error.to_kernel_errno] using he⟩
  · intro r hw hr
    have hr2 : r < 9223372036854775808 := by simpa using hr
    simp [llseek_callback, SEEK_CUR, SEEK_SET, u64_as_i64, hw, hr2]
  · intro hs hend hw
    exact ⟨by simp [fsync_callback, i64_try_into_u64, hs, hend, hw],
      by simpa [Error.to_kernel_errno] using he⟩
  · intro res hs hend hw
    simp [fsync_callback, i64_try_into_u64, hs, hend, hw]
  · intro hw
    exact ⟨by simp [unlocked_ioctl_callback, hw],
      by simpa [Error.to_kernel_errno] using he⟩
  · intro ret hw
    simp [unlocked_ioctl_callback, hw]
  · intro hw
    exact ⟨by simp [compat_ioctl_callback, hw],
      by simpa [Error.to_kernel_errno] using he⟩
  · intro ret hw
    simp [compat_ioctl_callback, hw]
  · intro hw
    exact ⟨by simp [open_callback, hw],
      by simpa [Error.to_kernel_errno] using he⟩
  · intro w hw
    simp [open_callback, hw]

/-- A driver read method that always fails with ENOMEM, used to witness
the error-conversion theorem. -/
def treadErr : Nat → file → UserSlicePtrWriter → Nat → KernelResult UserSlicePtrWriter :=
  fun _ _ _ _ => .error Error.ENOMEM

/-- Witness for the amended C7: a driver read failing with ENOMEM makes
the read trampoline return the negative errno -12 with the offset cell
untouched. -/
theorem C7_error_conversion_witness :
    (read_callback treadErr (fun _ _ => true) fileW 5 16 3 =
      (Error.ENOMEM.to_kernel_errno, 3) ∧
    Error.ENOMEM.to_kernel_errno < 0) :=
  (C7_error_conversion (W := Nat) (σ := Nat) treadErr twriteW
    FileOperations.default_seek FileOperations.default_fsync
    FileOperations.default_ioctl FileOperations.default_compat_ioctl
    (Except.ok 3) (fun w => w) (fun p => p) (fun _ _ s => s) 0
    (fun _ _ => true) fileW 5 16 3 0 0 0 0 0
    Error.ENOMEM (by decide)).1 rfl (by norm_num) rfl

/-- C9: registering an already-registered miscdev Registration fails
with EINVAL and leaves it unchanged; when the host's misc_register call
fails, the Registration is restored to the unregistered state and the
host error is surfaced (so a later drop deregisters nothing); a
successful register leaves a state whose drop deregisters; and dropping
a never-registered Registration deregisters nothing. -/
theorem C9_register_lifecycle (r : Registration) (t : ToUse) (name : Nat)
    (minor : Option Int) (ret : Int) :
    (r.mdev.isSome = true →
      r.register t name minor ret = (.error Error.EINVAL, r)) ∧
    (r.mdev = none → ret < 0 →
      r.register t name minor ret =
        (.error (Error.from_kernel_errno ret), Registration.new) ∧
      (r.register t name minor ret).2.drop_deregisters = false) ∧
    (r.mdev = none → 0 ≤ ret →
      (r.register t name minor ret).1 = .ok () ∧
      (r.register t name minor ret).2.drop_deregisters = true) ∧
    Registration.new.drop_deregisters = false := by
  refine ⟨?_, ?_, ?_, rfl⟩
  · intro hs
    simp [Registration.register, hs]
  · intro hn hret
    constructor <;>
      simp [Registration.register, Registration.new,
        Registration.drop_deregisters, hn, hret]
  · intro hn hret
    have hno : ¬ (ret < 0) := by omega
    constructor <;>
      simp [Registration.register, Registration.drop_deregisters, hn, hno]

/-- Witness for C9: a fresh Registration registers successfully when the
host accepts it (return code 0), and its drop then deregisters. -/
theorem C9_register_lifecycle_witness :
    (Registration.new.register USE_NONE 7 none 0).1 = .ok () ∧
    (Registration.new.register USE_NONE 7 none 0).2.drop_deregisters = true :=
  (C9_register_lifecycle Registration.new USE_NONE 7 none 0).2.2.1 rfl
    (by norm_num)
